import Mathlib

/-!
Verification development for the qpdb buffer-manager core.

The Rust sources under scrutiny are:
  - src/buffer/swip.rs  : the swizzled pointer enum `Swip` (Hot / Cold);
  - src/buffer/page.rs  : the `Page` struct (`PageId` id plus 4096 data bytes,
    `repr(align(4096))`) and `Page::new`;
  - src/error.rs        : the public `Error` enum (`Io`, `Corruption`, `NotFound`),
    its `source` method and the `From<std::io::Error>` conversion;
  - src/lib.rs          : the `Database` handle whose `open` is `todo!()`.

Machine integers (`u64` page ids, `u64` disk offsets, raw machine addresses,
`u8` bytes) are embedded as `Nat`; none of the embedded code performs
arithmetic on them, so no overflow reduction is needed.  Raw pointers
(`*mut Page`) are embedded as machine addresses, i.e. plain `Nat` values.

The buffer pool, eviction policy, optimistic latch and I/O backend exist in
the repository only as design documentation (the sources hold declarations
only); where a claim needs them they are modelled from the spec, and each
such definition says so in its doc comment.
-/

/-- `PAGE_SIZE` from src/buffer/page.rs: pages are 4096 bytes. -/
def PAGE_SIZE : Nat := 4096

/-! ## Swip — src/buffer/swip.rs

```rust
pub enum Swip {
    Hot(*mut Page),
    Cold(u64),
}
```
The `Hot` payload is a raw pointer, embedded as a machine address (`Nat`);
the `Cold` payload is a disk offset (`u64`, embedded as `Nat`). -/

/-- The swizzled pointer: either a direct in-memory address (`Hot`) or a
disk offset (`Cold`).  These are the only two constructors. -/
inductive Swip where
  /-- Hot: direct pointer (raw machine address) to an in-memory page. -/
  | Hot (ptr : Nat)
  /-- Cold: disk offset, requires I/O to load. -/
  | Cold (offset : Nat)
deriving DecidableEq, Repr

/-- `Swip::cold(offset)`: build a cold (on-disk) swip. -/
def Swip.cold (offset : Nat) : Swip := Swip.Cold offset

/-- `Swip::hot(ptr)`: build a hot (in-memory) swip from a raw address.
The source accepts any `*mut Page` value; accordingly any address is accepted
here, with no validity evidence demanded. -/
def Swip.hot (ptr : Nat) : Swip := Swip.Hot ptr

/-- `Swip::is_hot`: `matches!(self, Swip::Hot(_))`. -/
def Swip.is_hot : Swip → Bool
  | Swip.Hot _ => true
  | Swip.Cold _ => false

/-- `Swip::is_cold`: `matches!(self, Swip::Cold(_))`. -/
def Swip.is_cold : Swip → Bool
  | Swip.Hot _ => false
  | Swip.Cold _ => true

/-- The raw address carried by a hot swip, if any (embedding helper:
extracts the `Hot` payload a Rust `match` would bind). -/
def Swip.hotAddr : Swip → Option Nat
  | Swip.Hot p => some p
  | Swip.Cold _ => none

/-! ## Page — src/buffer/page.rs

```rust
pub type PageId = u64;

#[repr(align(4096))]
pub struct Page {
    pub id: PageId,
    pub data: [u8; 4096],
}
```
-/

/-- `PageId`: `u64`, embedded as `Nat`. -/
def PageId : Type := Nat

/-- In-memory page: a `PageId` plus 4096 data bytes (`data` embeds the
`[u8; 4096]` array as a list of byte values). -/
structure Page where
  /-- Page identifier. -/
  id : Nat
  /-- Page data, the `[u8; 4096]` array. -/
  data : List Nat
deriving DecidableEq, Repr

/-- `Page::new(id)`: `Self { id, data: [0; 4096] }`. -/
def Page.new (id : Nat) : Page :=
  { id := id, data := List.replicate PAGE_SIZE 0 }

/-! ### Layout of the `Page` struct

Rust guarantees, for any struct: its size is a multiple of its alignment, and
is at least the sum of its field sizes (fields never overlap).  `Page` has
`#[repr(align(4096))]`, a `u64` field (8 bytes) and a `[u8; 4096]` field
(4096 bytes); rustc lays it out as 8 + 4096 = 4104 bytes of fields rounded
up to the 4096-byte alignment. -/

/-- Round `n` up to the next multiple of the alignment `a` (Rust layout
padding rule). -/
def alignUp (n a : Nat) : Nat := ((n + a - 1) / a) * a

/-- Alignment of `Page`, declared by `#[repr(align(4096))]` (no field has a
larger alignment). -/
def Page.alignOf : Nat := 4096

/-- Total bytes of the fields of `Page`: 8 for `id: u64` plus 4096 for
`data: [u8; 4096]`. -/
def Page.fieldBytes : Nat := 8 + PAGE_SIZE

/-- Size of the `Page` struct: its fields rounded up to its alignment,
per the Rust layout guarantee that a struct size is a multiple of its
alignment. -/
def Page.sizeOf : Nat := alignUp Page.fieldBytes Page.alignOf

/-! ## Error — src/error.rs

```rust
pub enum Error {
    Io(std::io::Error),
    Corruption(String),
    NotFound,
}
```
`std::io::Error` is external to the repository; it is embedded as an opaque
wrapper `IoError` carrying an abstract code, since qpdb only stores and
returns it, never inspects it. -/

/-- Opaque embedding of `std::io::Error`: qpdb never looks inside one, it
only stores it in `Error::Io` and hands it back from `source`. -/
structure IoError where
  /-- Abstract identity of the underlying OS error. -/
  code : Nat
deriving DecidableEq, Repr

/-- The public qpdb error enum: exactly the three variants of src/error.rs. -/
inductive Error where
  /-- I/O error, carrying the underlying `std::io::Error`. -/
  | Io (e : IoError)
  /-- Database corruption, with a message. -/
  | Corruption (msg : String)
  /-- Key not found. -/
  | NotFound
deriving DecidableEq, Repr

/-- The variant names of the `Error` enum, exactly as declared in
src/error.rs lines 8-15. -/
def Error.variantNames : List String := ["Io", "Corruption", "NotFound"]

/-- `impl From<std::io::Error> for Error`: `Error::Io(err)`. -/
def Error.fromIoError (err : IoError) : Error := Error.Io err

/-- `Error::source`: `Some(e)` for `Io(e)`, `None` for every other variant
(the `_ => None` arm). -/
def Error.source : Error → Option IoError
  | Error.Io e => some e
  | _ => none

/-! ## Database — src/lib.rs

```rust
pub struct Database { _placeholder: () }

impl Database {
    pub fn open(_path: impl AsRef<std::path::Path>) -> Result<Self> {
        todo!("implement Database::open")
    }
}
```
A Rust function can return `Ok`, return `Err`, or diverge by panicking;
the embedding makes the three outcomes explicit. -/

/-- The `Database` handle (only a placeholder field in the source). -/
structure Database where
  /-- `_placeholder: ()`. -/
  placeholder : Unit
deriving DecidableEq, Repr

/-- Outcome of a Rust call returning `Result<Database>`: normal `Ok`,
normal `Err`, or a panic (as raised by `todo!`) with its message. -/
inductive OpenOutcome where
  /-- Returned `Ok(db)`. -/
  | ok (db : Database)
  /-- Returned `Err(e)`. -/
  | err (e : Error)
  /-- Panicked with the given message. -/
  | panics (msg : String)
deriving DecidableEq, Repr

/-- `Database::open`: the body is `todo!("implement Database::open")`, which
panics unconditionally whatever the path argument is.  The path is embedded
as a string (any `impl AsRef<Path>` argument is reduced to its path text,
which the body never reads). -/
def Database.openDb (_path : String) : OpenOutcome :=
  OpenOutcome.panics "implement Database::open"

/-! ## Buffer pool round-trip model

The buffer pool, eviction and I/O backend are absent from the sources
(declarations only); the definitions below are modelled from the spec
(sections 4.2 Buffer Pool, 4.4 I/O Backend, 6 External Interfaces) to settle
the round-trip property.  The model keeps one frame, the general case being
per-frame. -/

/-- Modelled from the spec: the I/O backing store of section 4.4 — a map
from byte offsets to whole-page contents (`read_page(offset)` /
`write_page(offset, bytes)` operate on `PAGE_SIZE` blocks). -/
structure Store where
  /-- Contents of the backing store, indexed by byte offset. -/
  pages : Nat → List Nat

/-- Modelled from the spec: `write_page(offset, bytes)` replaces the page at
the given offset. -/
def Store.write_page (s : Store) (off : Nat) (bytes : List Nat) : Store :=
  ⟨fun o => if o = off then bytes else s.pages o⟩

/-- Modelled from the spec: `read_page(offset)` returns the page at the
given offset. -/
def Store.read_page (s : Store) (off : Nat) : List Nat :=
  s.pages off

/-- Modelled from the spec: a buffer frame — the resident page id and
content plus the dirty flag (section 3, Buffer Frame). -/
structure Frame where
  /-- PageId of the resident page. -/
  pageId : Nat
  /-- Resident page content. -/
  content : List Nat
  /-- Dirty flag: content modified since load, must be flushed on eviction. -/
  dirty : Bool

/-- Modelled from the spec: pool state restricted to one frame slot — the
backing store, the (possibly free) frame, and the owning swip. -/
structure PoolState where
  /-- The I/O backing store. -/
  store : Store
  /-- The single frame slot (`none` = on the free list). -/
  frame : Option Frame
  /-- The swip owning the resident page. -/
  swip : Swip

/-- Modelled from the spec (section 6): a page lives at byte offset
`PageId * PAGE_SIZE` in the backing store. -/
def pageOffset (pid : Nat) : Nat := pid * PAGE_SIZE

/-- Modelled from the spec: a client write — install new content in the
resident frame and mark it dirty (`mark_dirty`). -/
def PoolState.writeContent (st : PoolState) (c : List Nat) : PoolState :=
  match st.frame with
  | some f => { st with frame := some { f with content := c, dirty := true } }
  | none => st

/-- Modelled from the spec: `evict_one` (section 4.2) — unswizzle the owning
swip to Cold at the page's disk offset, flush the content to the store if
the frame is dirty, and free the frame. -/
def PoolState.evict_one (st : PoolState) : PoolState :=
  match st.frame with
  | some f =>
      { store := if f.dirty then st.store.write_page (pageOffset f.pageId) f.content
                 else st.store,
        frame := none,
        swip := Swip.cold (pageOffset f.pageId) }
  | none => st

/-- Modelled from the spec: `resolve(swip)` (sections 4.1, 4.2) — if Hot,
return the resident content with no I/O; if Cold, read the page at the disk
offset, install it in a frame, swap the swip to Hot, and return the content. -/
def PoolState.resolve (st : PoolState) : PoolState × Option (List Nat) :=
  match st.swip with
  | Swip.Hot _ => (st, st.frame.map Frame.content)
  | Swip.Cold off =>
      let bytes := st.store.read_page off
      ({ store := st.store,
         frame := some { pageId := off / PAGE_SIZE, content := bytes, dirty := false },
         swip := Swip.hot 0 },
       some bytes)

/-- Modelled from the spec: a pool state holding page `pid` resident and
clean, owned by a Hot swip (the state after a load). -/
def PoolState.residentHot (store : Store) (pid : Nat) (c0 : List Nat) : PoolState :=
  { store := store,
    frame := some { pageId := pid, content := c0, dirty := false },
    swip := Swip.hot 0 }

/-! ## Optimistic latch model

The optimistic latch exists only as design documentation (spec section 4.3);
the step relation below is modelled from its per-frame state machine: an
even version counter means unlocked, an exclusive acquisition flips even N
to odd N+1, page bytes are written only while the counter is odd, and
release flips odd back to even N+2.  A step whose guard fails (a lost
compare-and-swap, or a write attempted without the latch) leaves the state
unchanged, encoding that the protocol admits no such transition. -/

/-- Modelled from the spec: the latch-protected per-frame state — the
version counter and the page bytes it guards (section 4.3). -/
structure FrameState where
  /-- Version counter: even = unlocked, odd = exclusively locked. -/
  version : Nat
  /-- The guarded page content. -/
  page : List Nat
deriving DecidableEq, Repr

/-- Modelled from the spec: the transitions of the section 4.3 state
machine — exclusive acquire, a single byte write under the latch, and
release. -/
inductive Step where
  /-- Compare-and-swap the counter from even N to odd N+1. -/
  | acquire
  /-- Write byte `b` at index `i` of the page (legal only while locked). -/
  | write (i : Nat) (b : Nat)
  /-- Increment the counter from odd N+1 to even N+2. -/
  | release
deriving DecidableEq, Repr

/-- Modelled from the spec: one transition of the section 4.3 state machine;
a transition whose guard fails leaves the state unchanged. -/
def stepRun (s : FrameState) : Step → FrameState
  | Step.acquire =>
      if s.version % 2 = 0 then { s with version := s.version + 1 } else s
  | Step.write i b =>
      if s.version % 2 = 1 then { s with page := s.page.set i b } else s
  | Step.release =>
      if s.version % 2 = 1 then { s with version := s.version + 1 } else s

/-- Modelled from the spec: run a sequence of latch-protocol steps. -/
def runSteps (s : FrameState) (l : List Step) : FrameState :=
  l.foldl stepRun s

/-! # Theorems -/

/-- The version counter never decreases across one protocol step. -/
theorem stepRun_version_le (s : FrameState) (st : Step) :
    s.version ≤ (stepRun s st).version := by
  cases st with
  | acquire =>
      by_cases h : s.version % 2 = 0 <;> simp [stepRun, h]
  | write i b =>
      by_cases h : s.version % 2 = 1 <;> simp [stepRun, h]
  | release =>
      by_cases h : s.version % 2 = 1 <;> simp [stepRun, h]

/-- The version counter never decreases across a run of protocol steps. -/
theorem runSteps_version_le (s : FrameState) (l : List Step) :
    s.version ≤ (runSteps s l).version := by
  induction l generalizing s with
  | nil => exact Nat.le_refl _
  | cons st rest ih =>
      exact Nat.le_trans (stepRun_version_le s st) (ih (stepRun s st))

/-- Running an appended step list runs the two parts in order. -/
theorem runSteps_append (s : FrameState) (l1 l2 : List Step) :
    runSteps s (l1 ++ l2) = runSteps (runSteps s l1) l2 := by
  simp [runSteps, List.foldl_append]

/-- A step that starts at an even (unlocked) version and leaves the version
unchanged leaves the whole state unchanged: acquire would bump the counter,
and write and release are no-ops while unlocked. -/
theorem stepRun_even_fixed (s : FrameState) (st : Step)
    (heven : s.version % 2 = 0)
    (hver : (stepRun s st).version = s.version) :
    stepRun s st = s := by
  cases st with
  | acquire =>
      exfalso
      rw [stepRun, if_pos heven] at hver
      simp at hver
  | write i b =>
      have hodd : ¬ s.version % 2 = 1 := by omega
      simp [stepRun, hodd]
  | release =>
      have hodd : ¬ s.version % 2 = 1 := by omega
      simp [stepRun, hodd]

/-- A run that starts at an even (unlocked) version and ends with the
version unchanged passes through no state change at all. -/
theorem runSteps_even_fixed (s : FrameState) (l : List Step)
    (heven : s.version % 2 = 0)
    (hver : (runSteps s l).version = s.version) :
    runSteps s l = s := by
  induction l generalizing s with
  | nil => rfl
  | cons st rest ih =>
      have hrun : runSteps s (st :: rest) = runSteps (stepRun s st) rest := rfl
      rw [hrun] at hver ⊢
      have h1 : s.version ≤ (stepRun s st).version := stepRun_version_le s st
      have h2 : (stepRun s st).version ≤ (runSteps (stepRun s st) rest).version :=
        runSteps_version_le (stepRun s st) rest
      have hmid : (stepRun s st).version = s.version := by omega
      have hfix : stepRun s st = s := stepRun_even_fixed s st heven hmid
      rw [hfix] at hver ⊢
      exact ih s heven hver

/-- C1: every Swip value is exactly one of Hot or Cold — `hot` and `cold`
cover all values (no third state is representable), exactly one of `is_hot`
and `is_cold` returns true on any swip, `is_hot (hot p) = true` for every
address `p`, and `is_cold (cold o) = true` for every offset `o`. -/
theorem swip_hot_cold_dichotomy :
    (∀ s : Swip, (∃ p, s = Swip.hot p) ∨ (∃ o, s = Swip.cold o)) ∧
    (∀ s : Swip, (s.is_hot = true ∧ s.is_cold = false) ∨
                 (s.is_hot = false ∧ s.is_cold = true)) ∧
    (∀ p : Nat, (Swip.hot p).is_hot = true) ∧
    (∀ o : Nat, (Swip.cold o).is_cold = true) := by
  refine ⟨?_, ?_, fun p => rfl, fun o => rfl⟩
  · intro s
    cases s with
    | Hot p => exact Or.inl ⟨p, rfl⟩
    | Cold o => exact Or.inr ⟨o, rfl⟩
  · intro s
    cases s with
    | Hot p => exact Or.inl ⟨rfl, rfl⟩
    | Cold o => exact Or.inr ⟨rfl, rfl⟩

/-- C4: `Page::new(id)` yields a page whose `id` field is the given id and
whose data is exactly 4096 bytes, all zero. -/
theorem page_new_zero_filled (id : Nat) :
    (Page.new id).id = id ∧
    (Page.new id).data = List.replicate 4096 0 ∧
    (Page.new id).data.length = 4096 ∧
    (Page.new id).data.all (fun b => b == 0) = true := by
  have hdata : (Page.new id).data = List.replicate 4096 0 := rfl
  refine ⟨rfl, hdata, ?_, ?_⟩
  · rw [hdata, List.length_replicate]
  · rw [hdata]
    refine List.all_eq_true.mpr ?_
    intro b hb
    rw [List.eq_of_mem_replicate hb]
    rfl

/-- Every Error value is built by one of the three declared constructors. -/
theorem error_cases_exhaustive (e : Error) :
    (∃ x, e = Error.Io x) ∨ (∃ m, e = Error.Corruption m) ∨ e = Error.NotFound := by
  cases e with
  | Io x => exact Or.inl ⟨x, rfl⟩
  | Corruption m => exact Or.inr (Or.inl ⟨m, rfl⟩)
  | NotFound => exact Or.inr (Or.inr rfl)

/-- C2 counterexample: the Page struct does not occupy PAGE_SIZE = 4096
bytes — with the 8-byte id laid out next to the 4096 data bytes and the
whole struct rounded up to its 4096-byte alignment, it occupies 8192 bytes,
twice PAGE_SIZE. -/
theorem page_size_counterexample :
    Page.sizeOf ≠ PAGE_SIZE ∧ Page.sizeOf = 2 * PAGE_SIZE ∧
    Page.alignOf = PAGE_SIZE := by
  decide

/-- C2 (amended): the Page type is memory-aligned to 4096 and its data
array is exactly PAGE_SIZE = 4096 bytes, but the struct itself occupies
8192 bytes, since it stores the 8-byte id alongside the data and Rust pads
the struct to a multiple of its alignment; indeed any size meeting Rust's
layout guarantees (a multiple of the 4096 alignment, at least the
8 + 4096 field bytes) is at least 8192. -/
theorem page_layout_amended :
    Page.alignOf = 4096 ∧ Page.sizeOf = 8192 ∧
    (∀ id : Nat, (Page.new id).data.length = PAGE_SIZE) ∧
    (∀ sz : Nat, sz % Page.alignOf = 0 → Page.fieldBytes ≤ sz → 8192 ≤ sz) := by
  refine ⟨rfl, by decide, ?_, ?_⟩
  · intro id
    have hdata : (Page.new id).data = List.replicate PAGE_SIZE 0 := rfl
    rw [hdata, List.length_replicate]
  · intro sz h1 h2
    simp only [Page.alignOf] at h1
    simp only [Page.fieldBytes, PAGE_SIZE] at h2
    omega

/-- Witness for the amended C2 layout theorem at the concrete size 8192. -/
theorem page_layout_amended_witness :
    8192 % Page.alignOf = 0 ∧ Page.fieldBytes ≤ 8192 ∧ 8192 ≤ 8192 :=
  ⟨by decide, by decide, page_layout_amended.2.2.2 8192 (by decide) (by decide)⟩

/-- C3 counterexample: the public error enum of src/error.rs declares no
OutOfMemory and no Exhausted variant — its taxonomy is only Io, Corruption
and NotFound. -/
theorem error_no_out_of_memory_variant :
    ¬ ("OutOfMemory" ∈ Error.variantNames ∨ "Exhausted" ∈ Error.variantNames) := by
  decide

/-- C3 (amended): the error taxonomy consists of exactly the variants Io,
Corruption and NotFound; it contains no OutOfMemory/Exhausted class, so no
operation can surface such an error to the caller (alloc_new itself is not
implemented in the sources). -/
theorem error_taxonomy_amended :
    Error.variantNames = ["Io", "Corruption", "NotFound"] ∧
    (∀ e : Error,
      (∃ x, e = Error.Io x) ∨ (∃ m, e = Error.Corruption m) ∨ e = Error.NotFound) :=
  ⟨rfl, error_cases_exhaustive⟩

/-- C5: the public error contract can express Io, Corruption and NotFound
failures — those three variants are declared and every Error value is one
of them — and never a latch conflict or optimistic-validation failure: no
Conflict and no Retry variant exists, so no public error value can
represent such a condition. -/
theorem error_contract_no_conflict_retry :
    (∀ e : Error,
      (∃ x, e = Error.Io x) ∨ (∃ m, e = Error.Corruption m) ∨ e = Error.NotFound) ∧
    "Io" ∈ Error.variantNames ∧
    "Corruption" ∈ Error.variantNames ∧
    "NotFound" ∈ Error.variantNames ∧
    "Conflict" ∉ Error.variantNames ∧
    "Retry" ∉ Error.variantNames :=
  ⟨error_cases_exhaustive, by decide, by decide, by decide, by decide, by decide⟩

/-- C6: round-trip through eviction preserves page content — starting from
a resident page, writing content `c` (marking the frame dirty), evicting
(which flushes the dirty content to the store and unswizzles the swip to
Cold), and resolving the swip again reads back exactly `c`, and leaves the
swip Hot again. -/
theorem buffer_round_trip (store : Store) (pid : Nat) (c0 c : List Nat) :
    (((PoolState.residentHot store pid c0).writeContent c).evict_one).resolve.2
      = some c ∧
    (((PoolState.residentHot store pid c0).writeContent c).evict_one).resolve.1.swip.is_hot
      = true := by
  constructor <;>
    simp [PoolState.residentHot, PoolState.writeContent, PoolState.evict_one,
      PoolState.resolve, Store.write_page, Store.read_page, Swip.cold, Swip.hot,
      Swip.is_hot, pageOffset]

/-- C7: a reader whose optimistic validation succeeds never observes a
half-written page.  If a reader records an even (unlocked) version before
reading and finds the version unchanged when it validates at the end of the
run, then at every intermediate point of the run (every prefix `t1` of the
interleaved steps) the page bytes equal the snapshot recorded at the start —
so whatever bytes the reader picked up along the way form one consistent
page image, never torn data. -/
theorem olc_validated_read_consistent (s : FrameState) (t1 t2 : List Step)
    (heven : s.version % 2 = 0)
    (hvalid : (runSteps s (t1 ++ t2)).version = s.version) :
    (runSteps s t1).page = s.page ∧ (runSteps s t1).version = s.version := by
  rw [runSteps_append] at hvalid
  have h1 : s.version ≤ (runSteps s t1).version := runSteps_version_le s t1
  have h2 : (runSteps s t1).version ≤ (runSteps (runSteps s t1) t2).version :=
    runSteps_version_le (runSteps s t1) t2
  have hmid : (runSteps s t1).version = s.version := by omega
  have hfix : runSteps s t1 = s := runSteps_even_fixed s t1 heven hmid
  rw [hfix]
  exact ⟨rfl, rfl⟩

/-- Witness for C7 on a concrete trace: from unlocked version 0 with page
[1, 2, 3], a write attempted without the latch and a stray release leave
the version at 0, so the validated reader sees the snapshot [1, 2, 3]. -/
theorem olc_validated_read_consistent_witness :
    (runSteps ⟨0, [1, 2, 3]⟩ [Step.write 0 9]).page = [1, 2, 3] ∧
    (runSteps ⟨0, [1, 2, 3]⟩ [Step.write 0 9]).version = 0 :=
  olc_validated_read_consistent ⟨0, [1, 2, 3]⟩ [Step.write 0 9] [Step.release]
    (by decide) (by decide)

/-- C8 counterexample: the Hot variant is an unvalidated raw address, not a
verified handle — a Hot swip at the null address and one at the very top of
the u64 address space (addresses backed by no frame in any arena) are both
freely constructible, so a dangling Hot reference is representable. -/
theorem swip_hot_free_address_counterexample :
    (Swip.hot 0).is_hot = true ∧
    (Swip.hot (2 ^ 64 - 1)).is_hot = true ∧
    (Swip.hot 0).hotAddr = some 0 :=
  ⟨rfl, rfl, rfl⟩

/-- C8 (amended): the Hot variant of Swip is represented as a free-floating
raw machine address (`*mut Page`): the constructor accepts every address
with no validity evidence and stores it unchanged, so a dangling Hot
reference after eviction is avoided only by convention, not made
structurally impossible. -/
theorem swip_hot_raw_address_amended :
    ∀ p : Nat, (Swip.hot p).is_hot = true ∧ (Swip.hot p).hotAddr = some p :=
  fun _ => ⟨rfl, rfl⟩

/-- C9: the From conversion sends every std::io::Error to the Io variant
carrying it unchanged, and source returns that underlying error for Io
while returning none for Corruption and NotFound. -/
theorem error_from_io_source (e : IoError) :
    Error.fromIoError e = Error.Io e ∧
    Error.source (Error.fromIoError e) = some e ∧
    (∀ m : String, Error.source (Error.Corruption m) = none) ∧
    Error.source Error.NotFound = none :=
  ⟨rfl, rfl, fun _ => rfl, rfl⟩

/-- C10: Database::open panics (the todo! placeholder) for every path
argument — it never returns Ok and never returns Err, so no Database value
is obtainable through the public API. -/
theorem database_open_panics (p : String) :
    Database.openDb p = OpenOutcome.panics "implement Database::open" ∧
    (∀ d : Database, Database.openDb p ≠ OpenOutcome.ok d) ∧
    (∀ e : Error, Database.openDb p ≠ OpenOutcome.err e) := by
  refine ⟨rfl, ?_, ?_⟩ <;> intro x h <;> exact OpenOutcome.noConfusion h
